import Mathlib

/-! # Rabbit: device facade and feature settings dialog

A shallow embedding of two headers of the Rabbit application:

* `FPGA/VLFDDeviceHandler.h`: the device facade, whose inline members forward
  commands to the running handler and re-emit signals;
* `Components/ComponentSettingsDialog.h`: the variadic template
  `ComponentSettingsDialogWithFeatures`, whose `features_` array is indexed by
  the enum value of every feature of the parameter pack.

Signals emitted and calls made on collaborators are recorded as traces, so that
"forwards exactly once" and "publishes no other event" are statements about
lists.
-/

namespace rabbit_App.fpga

/-! ## Machine integers -/

/-- Value held by a `uint64_t` parameter when the argument is `n`. -/
def toUInt64 (n : Nat) : Nat := n % 2 ^ 64

/-- Value held by an `int` (32 bit, two's complement) parameter when the
argument is `z`. -/
def toInt32 (z : Int) : Int := (z + 2 ^ 31) % 2 ^ 32 - 2 ^ 31

/-! ## The facade `VLFDDeviceHandler` -/

/-- Calls the facade's inline members make on `running_handler_`. -/
inductive RunningCall
  | ayncVLFDReadWriteHandler
  | setWriteData (write_data : Nat)
  | onFrequencyChanged (frequency : Int)
  deriving DecidableEq, Repr

/-- The type `uint16_t`: the values `0 .. 65535`. -/
abbrev uint16_t : Type := Fin 65536

/-- The signals declared by `VLFDDeviceHandler`; `readWriteDone` carries two
`std::vector<uint16_t>`. -/
inductive Signal
  | downloadBitstreamSuccess
  | downloadBitstreamFailure (error_message : String)
  | startRunning
  | stopRunning
  | readWriteDone (read_data : List uint16_t) (write_data : List uint16_t)
  | readWriteError (error_message : String)
  | askForWriteData
  deriving DecidableEq, Repr

/-- The data words a signal carries, as numbers: those of both vectors of
`readWriteDone`, none for the other signals. -/
def Signal.words : Signal → List Nat
  | Signal.readWriteDone read_data write_data =>
      (read_data ++ write_data).map (fun x => x.val)
  | _ => []

/-- The private members of `VLFDDeviceHandler`. There are exactly two, both
pointers to collaborators whose classes live in other headers.

* `program_handler_`: no inline member touches it; its state is kept as an
  abstract token.
* `running_handler_`: represented by the calls made on it so far, oldest
  first. -/
structure VLFDDeviceHandler where
  program_handler_ : Nat
  running_handler_ : List RunningCall
  deriving DecidableEq, Repr

/-- Result of running one member function: the facade afterwards and the
signals emitted during the call, in order. -/
structure Effect where
  handler : VLFDDeviceHandler
  emitted : List Signal
  deriving DecidableEq, Repr

namespace VLFDDeviceHandler

/-- A facade on whose collaborators nothing has been called yet. -/
def fresh : VLFDDeviceHandler :=
  { program_handler_ := 0, running_handler_ := [] }

/-- The member `ayncVLFDReadWriteHandler() const`:
`return running_handler_->ayncVLFDReadWriteHandler();` -/
def ayncVLFDReadWriteHandler (h : VLFDDeviceHandler) : Effect :=
  { handler := { h with running_handler_ :=
      h.running_handler_ ++ [RunningCall.ayncVLFDReadWriteHandler] },
    emitted := [] }

/-- The member `setWriteData(uint64_t write_data)`:
`running_handler_->setWriteData(write_data);` -/
def setWriteData (h : VLFDDeviceHandler) (write_data : Nat) : Effect :=
  { handler := { h with running_handler_ :=
      h.running_handler_ ++ [RunningCall.setWriteData (toUInt64 write_data)] },
    emitted := [] }

/-- The slot `forwardDownloadBitstreamSuccess()`: `emit downloadBitstreamSuccess();` -/
def forwardDownloadBitstreamSuccess (h : VLFDDeviceHandler) : Effect :=
  { handler := h, emitted := [Signal.downloadBitstreamSuccess] }

/-- The slot `forwardDownloadBitstreamFailure(const QString &error_message)`:
`emit downloadBitstreamFailure(error_message);` -/
def forwardDownloadBitstreamFailure (h : VLFDDeviceHandler)
    (error_message : String) : Effect :=
  { handler := h, emitted := [Signal.downloadBitstreamFailure error_message] }

/-- The slot `onStopRunning()`: `emit stopRunning();` -/
def onStopRunning (h : VLFDDeviceHandler) : Effect :=
  { handler := h, emitted := [Signal.stopRunning] }

/-- The slot `onStartRunning()`: `emit startRunning();` -/
def onStartRunning (h : VLFDDeviceHandler) : Effect :=
  { handler := h, emitted := [Signal.startRunning] }

/-- The slot `onFrequencyChanged(int frequency)`:
`running_handler_->onFrequencyChanged(frequency);` -/
def onFrequencyChanged (h : VLFDDeviceHandler) (frequency : Int) : Effect :=
  { handler := { h with running_handler_ :=
      h.running_handler_ ++ [RunningCall.onFrequencyChanged (toInt32 frequency)] },
    emitted := [] }

end VLFDDeviceHandler

/-! ## The specified device core

`VLFDDeviceHandler::program` is declared in the header and defined in
`VLFDDeviceHandler.cpp`, and the classes of the facade's two members,
`VLFDProgramHandler` and `VLFDRunningHandler`, are declared in other headers.
What follows is the facade of the specification over those two members. It is
not the header's facade: the slots above carry no gate. -/

/-- Modelled from the spec: the `DeviceState` of the data model (section 3).
The header declares no such type. -/
inductive DeviceState
  | Unprogrammed
  | Programming
  | Programmed
  | ProgramFailed
  | Running
  | Stopped
  deriving DecidableEq, Repr

/-- Modelled from the spec: the `DeviceError` kinds named in sections 4.4
and 5. -/
inductive DeviceError
  | NotReady
  | Busy
  deriving DecidableEq, Repr

/-- Modelled from the spec: the `ProgramError` kinds named in section 4.2. -/
inductive ProgramError
  | InvalidImage
  | Busy
  deriving DecidableEq, Repr

/-- Modelled from the spec: the `ConfigError` kind named in section 4.3. -/
inductive ConfigError
  | InvalidFrequency
  deriving DecidableEq, Repr

/-- Modelled from the spec: the `TransportError` kinds of section 7. -/
inductive TransportError
  | Timeout
  | Disconnected
  | Protocol
  deriving DecidableEq, Repr

/-- Modelled from the spec: what a command raises at the call boundary
(section 7); a command that raises nothing returns normally. -/
inductive Failure
  | config (e : ConfigError)
  | program (e : ProgramError)
  | device (e : DeviceError)
  deriving DecidableEq, Repr

/-- Modelled from the spec: the events of section 6. -/
inductive Event
  | programSucceeded
  | programFailed (message : String)
  | started
  | stopped
  | transactionReady (writeWord : Nat) (readWord : Nat)
  | transactionError (message : String)
  | writeWordRequested
  deriving DecidableEq, Repr

/-- Modelled from the spec: the states of the Program Controller
(section 4.2). -/
inductive ProgramControllerState
  | Idle
  | Transferring
  | Succeeded
  | Failed
  deriving DecidableEq, Repr

/-- Modelled from the spec: a bitstream is a binary payload plus its origin
path (section 3). -/
structure Bitstream where
  path : String
  payload : List Nat
  deriving DecidableEq, Repr

/-- Modelled from the spec: the Program Controller of section 4.2, class
`VLFDProgramHandler`: its state and the payloads it has handed to
`sendBitstream`, oldest first. -/
structure ProgramController where
  state : ProgramControllerState
  sent : List (List Nat)
  deriving DecidableEq, Repr

/-- Modelled from the spec: the Run Controller of section 4.3, class
`VLFDRunningHandler`: the frequency, the running flag, the pending write word,
and the number of tick loops begun so far. -/
structure RunController where
  frequency : Nat
  running : Bool
  writeWord : Nat
  loops : Nat
  deriving DecidableEq, Repr

/-- Modelled from the spec: the Device Facade of section 4.4 over the two
members the header declares, `program_handler_` and `running_handler_`. It has
no third member: its `DeviceState` is read off the two controllers. -/
structure DeviceFacade where
  program_handler_ : ProgramController
  running_handler_ : RunController
  deriving DecidableEq, Repr

/-- Modelled from the spec: the outcome of one command or completion: the
facade afterwards, what the call raised (the member is `void`, so a failure is
an exception), and the events published. -/
structure Reply where
  after : DeviceFacade
  raised : Option Failure
  events : List Event
  deriving DecidableEq, Repr

/-- Modelled from the spec: the quantities the specification leaves open.
* `acceptable`: the device-acceptable image sizes of section 4.2;
* `reprogram`: the `DeviceError` kind raised by `program` from Programmed or
  Stopped, a phase conflict of section 7 whose kind is not named;
* `defaultFrequency`, `defaultWord`: the values held before any is supplied
  (sections 4.3 and 9). -/
structure OpenChoices where
  acceptable : Nat → Bool
  reprogram : DeviceError
  defaultFrequency : Nat
  defaultWord : Nat

/-- Modelled from the spec: the human-readable message of a transport error
(section 7). -/
def TransportError.message : TransportError → String
  | TransportError.Timeout => "transport timeout"
  | TransportError.Disconnected => "device disconnected"
  | TransportError.Protocol => "protocol failure"

namespace ProgramController

/-- Modelled from the spec: `program(bitstream)` of section 4.2, in the order
of its sentences. An empty payload or one of a size the device does not accept
fails with `ProgramError::InvalidImage` without touching the transport; a
controller in Transferring rejects the call with `ProgramError::Busy`;
otherwise the controller moves to Transferring and issues `sendBitstream`. -/
def program (acceptable : Nat → Bool) (c : ProgramController) (b : Bitstream) :
    ProgramController × Option ProgramError :=
  if b.payload.isEmpty || !acceptable b.payload.length then
    (c, some ProgramError.InvalidImage)
  else if c.state = ProgramControllerState.Transferring then
    (c, some ProgramError.Busy)
  else
    ({ state := ProgramControllerState.Transferring, sent := c.sent ++ [b.payload] }, none)

end ProgramController

namespace RunController

end RunController

namespace DeviceFacade

/-- Modelled from the spec: the `DeviceState` of section 3 as the facade
derives it from its two controllers (section 9): Running while the Run
Controller runs; otherwise Unprogrammed, Programming or ProgramFailed after the
Program Controller's Idle, Transferring or Failed; after Succeeded, Programmed
until a tick loop has begun and Stopped from then on. -/
def deviceState (f : DeviceFacade) : DeviceState :=
  if f.running_handler_.running then DeviceState.Running
  else
    match f.program_handler_.state with
    | ProgramControllerState.Idle => DeviceState.Unprogrammed
    | ProgramControllerState.Transferring => DeviceState.Programming
    | ProgramControllerState.Failed => DeviceState.ProgramFailed
    | ProgramControllerState.Succeeded =>
        if f.running_handler_.loops = 0 then DeviceState.Programmed
        else DeviceState.Stopped

/-- Modelled from the spec: the Program Controller holds the Transport Channel
during programming (section 5). -/
def programHoldsTransport (f : DeviceFacade) : Prop :=
  f.program_handler_.state = ProgramControllerState.Transferring

/-- Modelled from the spec: the Run Controller holds the Transport Channel
during running (section 5). -/
def runHoldsTransport (f : DeviceFacade) : Prop :=
  f.running_handler_.running = true

instance programHoldsTransport.decidable (f : DeviceFacade) :
    Decidable f.programHoldsTransport :=
  inferInstanceAs (Decidable (f.program_handler_.state = ProgramControllerState.Transferring))

instance runHoldsTransport.decidable (f : DeviceFacade) : Decidable f.runHoldsTransport :=
  inferInstanceAs (Decidable (f.running_handler_.running = true))

/-- Modelled from the spec: `program` of the Device Facade, the body of
`VLFDDeviceHandler::program`, which the header only declares. While Running the
call raises `DeviceError::Busy` (section 5). Programming is reachable only from
Unprogrammed or ProgramFailed (section 3): from Programmed or Stopped the call
is a phase conflict, and from Programming the Program Controller rejects it.
From Unprogrammed or ProgramFailed the Program Controller takes the bitstream. -/
def program (p : OpenChoices) (f : DeviceFacade) (b : Bitstream) : Reply :=
  match f.deviceState with
  | DeviceState.Running =>
      { after := f, raised := some (Failure.device DeviceError.Busy), events := [] }
  | DeviceState.Programmed =>
      { after := f, raised := some (Failure.device p.reprogram), events := [] }
  | DeviceState.Stopped =>
      { after := f, raised := some (Failure.device p.reprogram), events := [] }
  | DeviceState.Programming =>
      { after := { f with program_handler_ :=
          (f.program_handler_.program p.acceptable b).1 },
        raised := (f.program_handler_.program p.acceptable b).2.map Failure.program,
        events := [] }
  | DeviceState.Unprogrammed =>
      { after := { f with program_handler_ :=
          (f.program_handler_.program p.acceptable b).1 },
        raised := (f.program_handler_.program p.acceptable b).2.map Failure.program,
        events := [] }
  | DeviceState.ProgramFailed =>
      { after := { f with program_handler_ :=
          (f.program_handler_.program p.acceptable b).1 },
        raised := (f.program_handler_.program p.acceptable b).2.map Failure.program,
        events := [] }

end DeviceFacade

end rabbit_App.fpga

namespace rabbit_App.component

/-! ## `ComponentSettingsDialogWithFeatures` -/

/-- The scoped enumeration `enum class SettingsFeature`. -/
inductive SettingsFeature
  | ActiveMode
  | VisionPersistence
  | Color
  deriving DecidableEq, Repr, Fintype

/-- The value `static_cast<int>(F)` of an enumerator `F`. -/
def SettingsFeature.toInt : SettingsFeature → Nat
  | SettingsFeature.ActiveMode => 0
  | SettingsFeature.VisionPersistence => 1
  | SettingsFeature.Color => 2

/-- The three feature widget classes. -/
inductive WidgetClass
  | ActiveModeSettingsFeatureWidget
  | VisionPersistenceSettingsFeatureWidget
  | ColorSettingsFeatureWidget
  deriving DecidableEq, Repr

/-- The alias `WidgetOfFeature<F>`, through the three specialisations of
`WidgetOfFeatureHelper`. -/
def WidgetOfFeature : SettingsFeature → WidgetClass
  | SettingsFeature.ActiveMode => WidgetClass.ActiveModeSettingsFeatureWidget
  | SettingsFeature.VisionPersistence =>
      WidgetClass.VisionPersistenceSettingsFeatureWidget
  | SettingsFeature.Color => WidgetClass.ColorSettingsFeatureWidget

/-- An object made by `new WidgetOfFeature<F>(component_, this)`: its class,
the component given to its constructor, and the position in the pack of the
`new` expression that made it. -/
structure FeatureWidget where
  cls : WidgetClass
  component : Nat
  serial : Nat
  deriving DecidableEq, Repr

/-- Undefined behaviour the embedding detects: an index outside an array. -/
inductive Fault
  | outOfBounds (index : Nat) (size : Nat)
  deriving DecidableEq, Repr

/-- The state of a dialog that the template touches. A `QWidget *` is an
`Option FeatureWidget`, `none` being `nullptr`.

* `component_`: the base class member, an object identity;
* `features_`: the `std::array<QWidget *, kFeaturesNum>`;
* `appended`: the arguments of the `appendSettingWidget` calls made since the
  base constructor returned, oldest first. -/
structure ComponentSettingsDialogWithFeatures where
  component_ : Nat
  features_ : List (Option FeatureWidget)
  appended : List (Option FeatureWidget)
  deriving DecidableEq, Repr

/-- What `accept` calls, in order. `widget cls ptr component` is the call
`static_cast<cls *>(ptr)->accept(component)`. -/
inductive AcceptCall
  | base
  | widget (cls : WidgetClass) (ptr : Option FeatureWidget) (component : Nat)
  deriving DecidableEq, Repr

/-- The constant `kFeaturesNum = sizeof...(Features)`. -/
def kFeaturesNum (Features : List SettingsFeature) : Nat := Features.length

/-- The assignment `a[i] = p` on a `std::array`. -/
def arraySet (a : List (Option FeatureWidget)) (i : Nat)
    (p : Option FeatureWidget) : Except Fault (List (Option FeatureWidget)) :=
  if i < a.length then Except.ok (a.set i p)
  else Except.error (Fault.outOfBounds i a.length)

/-- The read `a[i]` on a `std::array`. -/
def arrayGet (a : List (Option FeatureWidget)) (i : Nat) :
    Except Fault (Option FeatureWidget) :=
  match a[i]? with
  | some p => Except.ok p
  | none => Except.error (Fault.outOfBounds i a.length)

namespace ComponentSettingsDialogWithFeatures

/-- The member `appendSettingWidget(widget)` of the base class, as far as the template
can see: the widget joins the basic settings group. -/
def appendSettingWidget (d : ComponentSettingsDialogWithFeatures)
    (widget : Option FeatureWidget) : ComponentSettingsDialogWithFeatures :=
  { d with appended := d.appended ++ [widget] }

/-- The pack expansion of `initFeatureWidgets`, left to right:
`features_[static_cast<int>(Features)] = new WidgetOfFeature<Features>(component_, this)`
for each feature, `serial` counting the expansions done. -/
def assignFeatures (component_ : Nat) :
    List SettingsFeature → Nat → List (Option FeatureWidget) →
      Except Fault (List (Option FeatureWidget))
  | [], _, a => Except.ok a
  | F :: rest, serial, a =>
    match arraySet a F.toInt
        (some { cls := WidgetOfFeature F, component := component_, serial := serial }) with
    | Except.ok a1 => assignFeatures component_ rest (serial + 1) a1
    | Except.error e => Except.error e

/-- The member `initFeatureWidgets()`: the pack expansion, then
`for (auto feature : features_) appendSettingWidget(feature);`. -/
def initFeatureWidgets (Features : List SettingsFeature)
    (d : ComponentSettingsDialogWithFeatures) :
    Except Fault ComponentSettingsDialogWithFeatures :=
  match assignFeatures d.component_ Features 0 d.features_ with
  | Except.ok a => Except.ok (a.foldl appendSettingWidget { d with features_ := a })
  | Except.error e => Except.error e

/-- The constructor: the base class is built for `component`, `features_`
starts as `kFeaturesNum` null pointers, and the body calls
`initFeatureWidgets()`. -/
def new (Features : List SettingsFeature) (component : Nat) :
    Except Fault ComponentSettingsDialogWithFeatures :=
  initFeatureWidgets Features
    { component_ := component,
      features_ := List.replicate (kFeaturesNum Features) none,
      appended := [] }

/-- The pack expansion of `accept`, left to right:
`static_cast<WidgetOfFeature<Features> *>(features_[static_cast<int>(Features)])->accept(component_)`
for each feature, `done` holding the calls made so far. -/
def acceptFeatures (d : ComponentSettingsDialogWithFeatures) :
    List SettingsFeature → List AcceptCall → Except Fault (List AcceptCall)
  | [], done => Except.ok done
  | F :: rest, done =>
    match arrayGet d.features_ F.toInt with
    | Except.ok p =>
        acceptFeatures d rest
          (done ++ [AcceptCall.widget (WidgetOfFeature F) p d.component_])
    | Except.error e => Except.error e

/-- The override `accept()`: `ComponentSettingsDialog::accept();` and then the pack
expansion. The result is the sequence of calls made. -/
def accept (Features : List SettingsFeature)
    (d : ComponentSettingsDialogWithFeatures) : Except Fault (List AcceptCall) :=
  acceptFeatures d Features [AcceptCall.base]

end ComponentSettingsDialogWithFeatures

/-! ### Vocabulary of the statements -/

/-- Ascending enum value. -/
def enumLe (F G : SettingsFeature) : Prop := F.toInt ≤ G.toInt

instance enumLe.decidable : DecidableRel enumLe :=
  fun F G => inferInstanceAs (Decidable (F.toInt ≤ G.toInt))

/-- The widget that the pack expansion of `initFeatureWidgets` makes for the
feature `G` of the pack `Features`: of class `WidgetOfFeature<G>`, built for
`component`, by the `new` expression at the position of `G` in the pack. -/
def widgetFor (Features : List SettingsFeature) (component : Nat)
    (G : SettingsFeature) : FeatureWidget :=
  { cls := WidgetOfFeature G, component := component,
    serial := Features.indexOf G }

/-- The packs of pairwise distinct features whose enum values are all below
the pack's size. -/
def validPacks : List (List SettingsFeature) :=
  [ [],
    [SettingsFeature.ActiveMode],
    [SettingsFeature.ActiveMode, SettingsFeature.VisionPersistence],
    [SettingsFeature.VisionPersistence, SettingsFeature.ActiveMode],
    [SettingsFeature.ActiveMode, SettingsFeature.VisionPersistence, SettingsFeature.Color],
    [SettingsFeature.ActiveMode, SettingsFeature.Color, SettingsFeature.VisionPersistence],
    [SettingsFeature.VisionPersistence, SettingsFeature.ActiveMode, SettingsFeature.Color],
    [SettingsFeature.VisionPersistence, SettingsFeature.Color, SettingsFeature.ActiveMode],
    [SettingsFeature.Color, SettingsFeature.ActiveMode, SettingsFeature.VisionPersistence],
    [SettingsFeature.Color, SettingsFeature.VisionPersistence, SettingsFeature.ActiveMode] ]

end rabbit_App.component

/-! # Theorems -/

namespace rabbit_App.fpga

open VLFDDeviceHandler

/-! ## Machine integers -/

theorem toUInt64_lt (n : Nat) : toUInt64 n < 2 ^ 64 := by
  unfold toUInt64
  exact Nat.mod_lt n (by norm_num)

theorem toUInt64_of_lt (n : Nat) (hn : n < 2 ^ 64) : toUInt64 n = n := by
  unfold toUInt64
  exact Nat.mod_eq_of_lt hn

theorem toInt32_of_range (z : Int) (hlo : -2 ^ 31 ≤ z) (hhi : z < 2 ^ 31) :
    toInt32 z = z := by
  unfold toInt32
  omega

/-! ## Start requests -/

/-- C1, refuted as stated: on a facade on which `program` has never been
called, `onStartRunning` publishes `startRunning`; and no reading of a
`DeviceState` off the facade's members can make the slot silent outside
Programmed and Stopped while the untouched facade reads Unprogrammed. -/
theorem onStartRunning_fresh_publishes :
    (onStartRunning fresh).emitted = [Signal.startRunning] ∧
    ¬ ∃ deviceState : VLFDDeviceHandler → DeviceState,
        deviceState fresh = DeviceState.Unprogrammed ∧
        ∀ h, deviceState h ≠ DeviceState.Programmed →
          deviceState h ≠ DeviceState.Stopped → (onStartRunning h).emitted = [] := by
  refine ⟨rfl, ?_⟩
  rintro ⟨deviceState, h0, hall⟩
  have hsilent := hall fresh (by rw [h0]; decide) (by rw [h0]; decide)
  simp [onStartRunning] at hsilent

/-- C1, amended: whatever the facade's members hold, `onStartRunning`
publishes exactly one `startRunning` signal and nothing else, makes no call on
either handler and leaves the facade as it was. -/
theorem onStartRunning_always_publishes (h : VLFDDeviceHandler) :
    (onStartRunning h).emitted = [Signal.startRunning] ∧
    (onStartRunning h).handler = h := by
  exact ⟨rfl, rfl⟩

/-! ## Frequency changes -/

/-- C2, refuted as stated: the frequencies `0` and `-5` given to
`onFrequencyChanged` are handed on to the running handler. -/
theorem onFrequencyChanged_nonpositive_forwarded :
    (onFrequencyChanged fresh 0).handler.running_handler_
      = [RunningCall.onFrequencyChanged 0] ∧
    (onFrequencyChanged fresh (-5)).handler.running_handler_
      = [RunningCall.onFrequencyChanged (-5)] := by
  constructor <;> decide

/-- C2, amended: every `int` frequency, zero and negative ones included, is
handed to the running handler's `onFrequencyChanged` unchanged and exactly once;
the facade publishes no signal and its program handler is untouched. -/
theorem onFrequencyChanged_forwards (h : VLFDDeviceHandler) (hz : Int)
    (hlo : -2 ^ 31 ≤ hz) (hhi : hz < 2 ^ 31) :
    (onFrequencyChanged h hz).handler.running_handler_
      = h.running_handler_ ++ [RunningCall.onFrequencyChanged hz] ∧
    (onFrequencyChanged h hz).handler.program_handler_ = h.program_handler_ ∧
    (onFrequencyChanged h hz).emitted = [] := by
  refine ⟨?_, rfl, rfl⟩
  simp [onFrequencyChanged, toInt32_of_range hz hlo hhi]

theorem onFrequencyChanged_forwards_witness :
    (onFrequencyChanged fresh (-1)).handler.running_handler_
      = fresh.running_handler_ ++ [RunningCall.onFrequencyChanged (-1)] ∧
    (onFrequencyChanged fresh (-1)).handler.program_handler_ = fresh.program_handler_ ∧
    (onFrequencyChanged fresh (-1)).emitted = [] :=
  onFrequencyChanged_forwards fresh (-1) (by decide) (by decide)

/-! ## Programming while running -/

theorem DeviceFacade.program_sends_only_when_allowed (p : OpenChoices) (f : DeviceFacade)
    (b : Bitstream)
    (hsent : (f.program p b).after.program_handler_.sent ≠ f.program_handler_.sent) :
    (f.deviceState = DeviceState.Unprogrammed ∨ f.deviceState = DeviceState.ProgramFailed) ∧
    (f.program p b).after.deviceState = DeviceState.Programming ∧
    (f.program p b).raised = none := by
  obtain ⟨⟨s, sent⟩, ⟨freq, running, w, loops⟩⟩ := f
  revert hsent
  rcases loops with _ | n <;> cases running <;> cases s <;>
    simp [DeviceFacade.program, DeviceFacade.deviceState, ProgramController.program] <;>
    split <;> simp_all

/-- C4, refuted as stated: the success slot leaves the facade exactly as it
was, so no reading of a `DeviceState` off the facade's members is Unprogrammed
before the slot runs and Programmed after it. -/
theorem forwardDownloadBitstreamSuccess_keeps_state :
    ¬ ∃ deviceState : VLFDDeviceHandler → DeviceState,
        deviceState fresh = DeviceState.Unprogrammed ∧
        deviceState (forwardDownloadBitstreamSuccess fresh).handler
          = DeviceState.Programmed := by
  rintro ⟨deviceState, h0, h1⟩
  have hsame : (forwardDownloadBitstreamSuccess fresh).handler = fresh := rfl
  rw [hsame, h0] at h1
  exact absurd h1 (by decide)

/-- C4, amended: for every programming success reported to the facade,
`forwardDownloadBitstreamSuccess` publishes exactly one
`downloadBitstreamSuccess` signal and no other, and leaves both members of the
facade untouched: the facade records no state. -/
theorem forwardDownloadBitstreamSuccess_publishes_once (h : VLFDDeviceHandler) :
    (forwardDownloadBitstreamSuccess h).emitted = [Signal.downloadBitstreamSuccess] ∧
    (forwardDownloadBitstreamSuccess h).handler = h := by
  exact ⟨rfl, rfl⟩

/-- C5: for every message `m`, `forwardDownloadBitstreamFailure` publishes
exactly one signal, `downloadBitstreamFailure m` with the message unchanged,
and leaves the facade untouched. -/
theorem forwardDownloadBitstreamFailure_publishes_once (h : VLFDDeviceHandler)
    (m : String) :
    (forwardDownloadBitstreamFailure h m).emitted = [Signal.downloadBitstreamFailure m] ∧
    (forwardDownloadBitstreamFailure h m).emitted.length = 1 ∧
    (forwardDownloadBitstreamFailure h m).handler = h := by
  exact ⟨rfl, rfl, rfl⟩

/-! ## Write data -/

/-- C6: for every `uint64_t` value `w`, `setWriteData` makes exactly one call on
the running handler, `setWriteData w` with the value unchanged, publishes no
signal and leaves the program handler untouched. -/
theorem setWriteData_pass_through (h : VLFDDeviceHandler) (w : Nat)
    (hw : w < 2 ^ 64) :
    (setWriteData h w).handler.running_handler_
      = h.running_handler_ ++ [RunningCall.setWriteData w] ∧
    (setWriteData h w).handler.program_handler_ = h.program_handler_ ∧
    (setWriteData h w).emitted = [] := by
  refine ⟨?_, rfl, rfl⟩
  simp [setWriteData, toUInt64_of_lt w hw]

theorem setWriteData_pass_through_witness :
    (setWriteData fresh 43981).handler.running_handler_
      = fresh.running_handler_ ++ [RunningCall.setWriteData 43981] ∧
    (setWriteData fresh 43981).handler.program_handler_ = fresh.program_handler_ ∧
    (setWriteData fresh 43981).emitted = [] :=
  setWriteData_pass_through fresh 43981 (by norm_num)

/-- C7, refuted as stated: `setWriteData` accepts `65536`, which is no 16-bit
value, and hands it on as it is. -/
theorem setWriteData_accepts_65536 :
    (setWriteData fresh 65536).handler.running_handler_
      = [RunningCall.setWriteData 65536] ∧ ¬ (65536 ≤ 65535) := by
  constructor <;> decide

/-- C7, amended: every write word that `setWriteData` hands to the running
handler is a 64-bit unsigned value, the argument reduced modulo `2 ^ 64`, so
`65536` is supplied as it is; the 16-bit width is that of the words carried by
`readWriteDone`, each at most `65535`. -/
theorem setWriteData_word_is_uint64 (h : VLFDDeviceHandler) (w : Nat) :
    (∃ v, (setWriteData h w).handler.running_handler_
        = h.running_handler_ ++ [RunningCall.setWriteData v] ∧
      v < 2 ^ 64 ∧ v = w % 2 ^ 64) ∧
    (setWriteData h 65536).handler.running_handler_
      = h.running_handler_ ++ [RunningCall.setWriteData 65536] ∧
    (∀ read_data write_data : List uint16_t,
      ∀ x ∈ (Signal.readWriteDone read_data write_data).words, x ≤ 65535) := by
  refine ⟨⟨toUInt64 w, rfl, toUInt64_lt w, rfl⟩, rfl, ?_⟩
  intro read_data write_data x hx
  simp only [Signal.words, List.mem_map] at hx
  obtain ⟨y, _, hy⟩ := hx
  have hlt : y.val < 65536 := y.isLt
  omega

end rabbit_App.fpga

namespace rabbit_App.component

open ComponentSettingsDialogWithFeatures

/-! ## Array accesses -/

theorem arraySet_ok_iff (a : List (Option FeatureWidget)) (i : Nat)
    (p : Option FeatureWidget) :
    (∃ b, arraySet a i p = Except.ok b) ↔ i < a.length := by
  unfold arraySet
  by_cases hi : i < a.length
  · simp [hi]
  · simp [hi]

theorem arraySet_length (a b : List (Option FeatureWidget)) (i : Nat)
    (p : Option FeatureWidget) (hab : arraySet a i p = Except.ok b) :
    b.length = a.length := by
  unfold arraySet at hab
  by_cases hi : i < a.length
  · simp [hi] at hab
    rw [← hab]
    simp
  · simp [hi] at hab

theorem arrayGet_ok_iff (a : List (Option FeatureWidget)) (i : Nat) :
    (∃ p, arrayGet a i = Except.ok p) ↔ i < a.length := by
  unfold arrayGet
  by_cases hi : i < a.length
  · simp [List.getElem?_eq_getElem hi, hi]
  · have hnone : a[i]? = none := List.getElem?_eq_none (Nat.le_of_not_lt hi)
    simp [hnone, hi]

theorem assignFeatures_ok_iff (component_ : Nat) (Features : List SettingsFeature) :
    ∀ (serial : Nat) (a : List (Option FeatureWidget)),
      (∃ b, assignFeatures component_ Features serial a = Except.ok b) ↔
        ∀ F ∈ Features, F.toInt < a.length := by
  induction Features with
  | nil => intro serial a; simp [assignFeatures]
  | cons F rest ih =>
    intro serial a
    simp only [assignFeatures, List.mem_cons, forall_eq_or_imp]
    by_cases hi : F.toInt < a.length
    · obtain ⟨a1, ha1⟩ := (arraySet_ok_iff a F.toInt
        (some { cls := WidgetOfFeature F, component := component_, serial := serial })).2 hi
      rw [ha1]
      simp only [hi, true_and]
      rw [ih (serial + 1) a1, arraySet_length a a1 _ _ ha1]
    · have hno : ¬ ∃ b, arraySet a F.toInt
          (some { cls := WidgetOfFeature F, component := component_, serial := serial })
            = Except.ok b := fun hex => hi ((arraySet_ok_iff _ _ _).1 hex)
      constructor
      · rintro ⟨b, hb⟩
        exfalso
        cases hset : arraySet a F.toInt
          (some { cls := WidgetOfFeature F, component := component_, serial := serial }) with
        | ok a1 => exact hno ⟨a1, hset⟩
        | error e => rw [hset] at hb; cases hb
      · rintro ⟨hlt, _⟩
        exact absurd hlt hi

theorem initFeatureWidgets_ok_iff (Features : List SettingsFeature)
    (d : ComponentSettingsDialogWithFeatures) :
    (∃ r, initFeatureWidgets Features d = Except.ok r) ↔
      ∀ F ∈ Features, F.toInt < d.features_.length := by
  rw [← assignFeatures_ok_iff d.component_ Features 0 d.features_]
  unfold initFeatureWidgets
  cases hassign : assignFeatures d.component_ Features 0 d.features_ with
  | ok a => simp
  | error e => simp

theorem acceptFeatures_ok_iff (d : ComponentSettingsDialogWithFeatures)
    (Features : List SettingsFeature) :
    ∀ done : List AcceptCall,
      (∃ t, acceptFeatures d Features done = Except.ok t) ↔
        ∀ F ∈ Features, F.toInt < d.features_.length := by
  induction Features with
  | nil => intro done; simp [acceptFeatures]
  | cons F rest ih =>
    intro done
    simp only [acceptFeatures, List.mem_cons, forall_eq_or_imp]
    cases hget : arrayGet d.features_ F.toInt with
    | ok p =>
      have hi : F.toInt < d.features_.length := (arrayGet_ok_iff _ _).1 ⟨p, hget⟩
      simp only [hi, true_and]
      exact ih _
    | error e =>
      have hi : ¬ F.toInt < d.features_.length := by
        intro hlt
        obtain ⟨p, hp⟩ := (arrayGet_ok_iff d.features_ F.toInt).2 hlt
        rw [hp] at hget
        cases hget
      simp [hi]

/-- C8: on a dialog whose `features_` array has `kFeaturesNum` slots,
`initFeatureWidgets` and `accept` each stay inside the array exactly when every
feature of the pack has an enum value below the number of features; the pack
`<Color>` indexes slot 2 of a one-slot array in both. -/
theorem features_index_in_bounds_iff (Features : List SettingsFeature)
    (d : ComponentSettingsDialogWithFeatures)
    (hd : d.features_.length = kFeaturesNum Features) :
    ((∃ r, initFeatureWidgets Features d = Except.ok r) ↔
      ∀ F ∈ Features, F.toInt < kFeaturesNum Features) ∧
    ((∃ t, accept Features d = Except.ok t) ↔
      ∀ F ∈ Features, F.toInt < kFeaturesNum Features) ∧
    (∀ component : Nat,
      ComponentSettingsDialogWithFeatures.new [SettingsFeature.Color] component
        = Except.error (Fault.outOfBounds 2 1)) ∧
    (∀ (component : Nat) (p : Option FeatureWidget),
      accept [SettingsFeature.Color]
          { component_ := component, features_ := [p], appended := [] }
        = Except.error (Fault.outOfBounds 2 1)) := by
  refine ⟨?_, ?_, fun _ => rfl, fun _ _ => rfl⟩
  · rw [initFeatureWidgets_ok_iff, hd]
  · unfold accept
    rw [acceptFeatures_ok_iff, hd]

theorem features_index_in_bounds_iff_witness :
    ([none, none] : List (Option FeatureWidget)).length
        = kFeaturesNum [SettingsFeature.VisionPersistence, SettingsFeature.ActiveMode] ∧
    ((∃ r, initFeatureWidgets [SettingsFeature.VisionPersistence, SettingsFeature.ActiveMode]
        { component_ := 4, features_ := [none, none], appended := [] } = Except.ok r) ↔
      ∀ F ∈ [SettingsFeature.VisionPersistence, SettingsFeature.ActiveMode],
        F.toInt < kFeaturesNum [SettingsFeature.VisionPersistence, SettingsFeature.ActiveMode]) :=
  ⟨rfl, (features_index_in_bounds_iff
    [SettingsFeature.VisionPersistence, SettingsFeature.ActiveMode]
    { component_ := 4, features_ := [none, none], appended := [] } rfl).1⟩

end rabbit_App.component

namespace rabbit_App.component

open ComponentSettingsDialogWithFeatures

/-! ## Packs that fill the array -/

theorem enumLe_total (F G : SettingsFeature) : enumLe F G ∨ enumLe G F := by
  cases F <;> cases G <;> decide

theorem enumLe_trans (F G H : SettingsFeature) (hFG : enumLe F G) (hGH : enumLe G H) :
    enumLe F H := by
  unfold enumLe at *
  omega

theorem enumLe_antisymm (F G : SettingsFeature) (hFG : enumLe F G) (hGF : enumLe G F) :
    F = G := by
  revert hFG hGF
  cases F <;> cases G <;> decide

theorem insertionSort_enumLe_perm (Features Features2 : List SettingsFeature)
    (hperm : Features2.Perm Features) :
    List.insertionSort enumLe Features2 = List.insertionSort enumLe Features := by
  haveI : IsTotal SettingsFeature enumLe := ⟨enumLe_total⟩
  haveI : IsTrans SettingsFeature enumLe := ⟨enumLe_trans⟩
  haveI : IsAntisymm SettingsFeature enumLe := ⟨enumLe_antisymm⟩
  apply List.eq_of_perm_of_sorted _ (List.sorted_insertionSort enumLe Features2)
    (List.sorted_insertionSort enumLe Features)
  exact (List.perm_insertionSort enumLe Features2).trans
    (hperm.trans (List.perm_insertionSort enumLe Features).symm)

theorem mem_validPacks (Features : List SettingsFeature) (hnd : Features.Nodup)
    (hlt : ∀ F ∈ Features, F.toInt < Features.length) : Features ∈ validPacks := by
  have hcard : Features.length ≤ 3 := by
    have hle := List.Nodup.length_le_card hnd
    have h3 : Fintype.card SettingsFeature = 3 := by decide
    omega
  rcases Features with _ | ⟨a, _ | ⟨b, _ | ⟨c, _ | ⟨e, t⟩⟩⟩⟩
  · decide
  · revert hnd hlt
    cases a <;> decide
  · revert hnd hlt
    cases a <;> cases b <;> decide
  · revert hnd hlt
    cases a <;> cases b <;> cases c <;> decide
  · simp at hcard

theorem new_validPack (Features : List SettingsFeature) (component : Nat)
    (hmem : Features ∈ validPacks) :
    ∃ d, ComponentSettingsDialogWithFeatures.new Features component = Except.ok d ∧
      (∀ p ∈ d.appended, p ≠ none) ∧
      d.appended = (List.insertionSort enumLe Features).map
        (fun G => some (widgetFor Features component G)) ∧
      accept Features d = Except.ok
        (AcceptCall.base :: Features.map
          (fun G => AcceptCall.widget (WidgetOfFeature G)
            (some (widgetFor Features component G)) component)) ∧
      Features.map (fun G => d.features_[G.toInt]?)
        = Features.map (fun G => some (some (widgetFor Features component G))) := by
  simp only [validPacks, List.mem_cons, List.mem_singleton, List.not_mem_nil, or_false] at hmem
  rcases hmem with h | h | h | h | h | h | h | h | h | h <;> subst h <;>
    exact ⟨_, rfl, by simp [ComponentSettingsDialogWithFeatures.new, initFeatureWidgets,
      assignFeatures, arraySet, kFeaturesNum, appendSettingWidget, SettingsFeature.toInt],
      rfl, rfl, rfl⟩

theorem widgetFor_injective (Features : List SettingsFeature) (component : Nat) :
    Function.Injective (widgetFor Features component) := by
  intro G H hGH
  have hcls : WidgetOfFeature G = WidgetOfFeature H := congrArg FeatureWidget.cls hGH
  revert hcls
  cases G <;> cases H <;> decide

/-- C9: for a pack of pairwise distinct features whose enum values are all
below the pack's size, the constructor succeeds and the widgets that
`initFeatureWidgets` hands to `appendSettingWidget` contain no null pointer and
are the features' widgets in ascending enum order; a permutation of the pack
appends widgets of the same classes in the same order. -/
theorem appended_sorted_by_enum (Features Features2 : List SettingsFeature)
    (component : Nat) (hnd : Features.Nodup)
    (hlt : ∀ F ∈ Features, F.toInt < Features.length)
    (hperm : Features2.Perm Features) :
    ∃ d d2, ComponentSettingsDialogWithFeatures.new Features component = Except.ok d ∧
      ComponentSettingsDialogWithFeatures.new Features2 component = Except.ok d2 ∧
      (∀ p ∈ d.appended, p ≠ none) ∧
      d.appended = (List.insertionSort enumLe Features).map
        (fun G => some (widgetFor Features component G)) ∧
      d2.appended.map (Option.map FeatureWidget.cls)
        = d.appended.map (Option.map FeatureWidget.cls) := by
  have hnd2 : Features2.Nodup := hperm.nodup_iff.2 hnd
  have hlt2 : ∀ F ∈ Features2, F.toInt < Features2.length := by
    intro F hF
    rw [hperm.length_eq]
    exact hlt F (hperm.mem_iff.1 hF)
  obtain ⟨d, hd, hnull, happ, _, _⟩ :=
    new_validPack Features component (mem_validPacks Features hnd hlt)
  obtain ⟨d2, hd2, _, happ2, _, _⟩ :=
    new_validPack Features2 component (mem_validPacks Features2 hnd2 hlt2)
  refine ⟨d, d2, hd, hd2, hnull, happ, ?_⟩
  rw [happ, happ2, insertionSort_enumLe_perm Features Features2 hperm]
  simp [widgetFor]

theorem appended_sorted_by_enum_witness :
    [SettingsFeature.ActiveMode, SettingsFeature.VisionPersistence,
        SettingsFeature.Color].Nodup ∧
    ∃ d d2, ComponentSettingsDialogWithFeatures.new
        [SettingsFeature.ActiveMode, SettingsFeature.VisionPersistence,
          SettingsFeature.Color] 7 = Except.ok d ∧
      ComponentSettingsDialogWithFeatures.new
        [SettingsFeature.Color, SettingsFeature.ActiveMode,
          SettingsFeature.VisionPersistence] 7 = Except.ok d2 ∧
      (∀ p ∈ d.appended, p ≠ none) ∧
      d.appended = (List.insertionSort enumLe
        [SettingsFeature.ActiveMode, SettingsFeature.VisionPersistence,
          SettingsFeature.Color]).map
        (fun G => some (widgetFor
          [SettingsFeature.ActiveMode, SettingsFeature.VisionPersistence,
            SettingsFeature.Color] 7 G)) ∧
      d2.appended.map (Option.map FeatureWidget.cls)
        = d.appended.map (Option.map FeatureWidget.cls) :=
  ⟨by decide,
    appended_sorted_by_enum
      [SettingsFeature.ActiveMode, SettingsFeature.VisionPersistence, SettingsFeature.Color]
      [SettingsFeature.Color, SettingsFeature.ActiveMode, SettingsFeature.VisionPersistence]
      7 (by decide) (by decide) (by decide)⟩

/-- C10: for a pack of pairwise distinct features whose enum values are all
below the pack's size, `accept` first runs the base `accept` and then calls
`accept(component_)` once per listed feature, in pack order, through the pointer
stored in that feature's slot: the widget `initFeatureWidgets` made for it, of
class `WidgetOfFeature` of the feature. The widgets called are pairwise
distinct and there is no other call. -/
theorem accept_calls_each_feature_widget (Features : List SettingsFeature)
    (component : Nat) (hnd : Features.Nodup)
    (hlt : ∀ F ∈ Features, F.toInt < Features.length) :
    ∃ d, ComponentSettingsDialogWithFeatures.new Features component = Except.ok d ∧
      accept Features d = Except.ok
        (AcceptCall.base :: Features.map
          (fun G => AcceptCall.widget (WidgetOfFeature G)
            (some (widgetFor Features component G)) component)) ∧
      (∀ G ∈ Features,
        d.features_[G.toInt]? = some (some (widgetFor Features component G)) ∧
        (widgetFor Features component G).cls = WidgetOfFeature G) ∧
      (Features.map (widgetFor Features component)).Nodup := by
  obtain ⟨d, hd, _, _, hacc, hslots⟩ :=
    new_validPack Features component (mem_validPacks Features hnd hlt)
  refine ⟨d, hd, hacc, ?_, hnd.map (widgetFor_injective Features component)⟩
  intro G hG
  exact ⟨List.map_inj_left.1 hslots G hG, rfl⟩

theorem accept_calls_each_feature_widget_witness :
    [SettingsFeature.VisionPersistence, SettingsFeature.ActiveMode].Nodup ∧
    ∃ d, ComponentSettingsDialogWithFeatures.new
        [SettingsFeature.VisionPersistence, SettingsFeature.ActiveMode] 3 = Except.ok d ∧
      accept [SettingsFeature.VisionPersistence, SettingsFeature.ActiveMode] d = Except.ok
        (AcceptCall.base :: [SettingsFeature.VisionPersistence, SettingsFeature.ActiveMode].map
          (fun G => AcceptCall.widget (WidgetOfFeature G)
            (some (widgetFor
              [SettingsFeature.VisionPersistence, SettingsFeature.ActiveMode] 3 G)) 3)) ∧
      (∀ G ∈ [SettingsFeature.VisionPersistence, SettingsFeature.ActiveMode],
        d.features_[G.toInt]? = some (some (widgetFor
          [SettingsFeature.VisionPersistence, SettingsFeature.ActiveMode] 3 G)) ∧
        (widgetFor [SettingsFeature.VisionPersistence, SettingsFeature.ActiveMode] 3 G).cls
          = WidgetOfFeature G) ∧
      ([SettingsFeature.VisionPersistence, SettingsFeature.ActiveMode].map
        (widgetFor [SettingsFeature.VisionPersistence, SettingsFeature.ActiveMode] 3)).Nodup :=
  ⟨by decide,
    accept_calls_each_feature_widget
      [SettingsFeature.VisionPersistence, SettingsFeature.ActiveMode] 3
      (by decide) (by decide)⟩

end rabbit_App.component
